import Mathlib

/-!
Shallow embedding of the Linux implementation of github.com/mdlayher/raw
(`raw.go`, `raw_linux.go`): the `packetConn` type, its methods, and the
helpers they use.  Stateful Go methods become explicit state passing; the
`socket` interface (syscalls) becomes oracle parameters carrying the
syscall results; recorded syscall arguments are returned alongside so that
theorems can speak about which calls were issued and with what data.
-/

namespace Raw

/-- Errors, modelling Go `error` values relevant to this package:
`unix.EINVAL`, `unix.EAGAIN`, errors wrapped by `os.NewSyscallError`
(which tags an underlying error with the attempted syscall name), and
opaque distinct errors produced elsewhere. -/
inductive Err where
  | EINVAL : Err
  | EAGAIN : Err
  | syscallError : String → Err → Err
  | other : Nat → Err
deriving DecidableEq

/-- Layout of `unix.SockaddrLinklayer`: protocol (uint16, network byte
order), interface index (int), hardware-address length `Halen` (uint8) and
the 8-byte `Addr` array, modelled as a byte list. -/
structure SockaddrLinklayer where
  protocol : Nat
  ifindex : Int
  hatype : Nat
  pkttype : Nat
  halen : Nat
  addr : List Nat
deriving DecidableEq

/-- The `unix.Sockaddr` interface: a received address is either a
`*SockaddrLinklayer` or some other sockaddr kind (e.g. `*SockaddrInet4`),
which fails the type assertion in `ReadFrom`. -/
inductive Sockaddr where
  | linklayer : SockaddrLinklayer → Sockaddr
  | otherKind : Nat → Sockaddr
deriving DecidableEq

/-- The package's `Addr` type: wraps a `net.HardwareAddr` slice, which can
be `nil` (`none`) or a byte list. -/
structure Addr where
  hardwareAddr : Option (List Nat)
deriving DecidableEq

/-- The `net.Addr` interface value handed to `WriteTo`: either a `*Addr`
of this package or any other address type (e.g. `*net.IPAddr`), which
fails the type assertion. -/
inductive NetAddr where
  | rawAddr : Addr → NetAddr
  | otherAddr : Nat → NetAddr
deriving DecidableEq

/-- The fields of `net.Interface` used by this package: `Index` and
`HardwareAddr`. -/
structure Interface where
  index : Int
  hardwareAddr : List Nat
deriving DecidableEq

/-- `Stats` of the raw package: uint64 packet and drop counters. -/
structure Stats where
  packets : Nat
  drops : Nat
deriving DecidableEq

/-- `unix.TpacketStats`: uint32 packet and drop counters as returned by
the kernel for `PACKET_STATISTICS`. -/
structure TpacketStats where
  packets : Nat
  drops : Nat
deriving DecidableEq

/-- `Config` fields consumed by the Linux `listenPacket`. -/
structure Config where
  noTimeouts : Bool
  noCumulativeStats : Bool
  linuxSockDGRAM : Bool
deriving DecidableEq

/-- The Linux `packetConn` struct: bound interface, big-endian protocol
`pbe`, config flags and the internal cumulative `stats` storage.  The
socket handle itself is modelled by oracle arguments on each method. -/
structure PacketConn where
  ifi : Interface
  pbe : Nat
  noTimeouts : Bool
  noCumulativeStats : Bool
  stats : Stats
deriving DecidableEq

/-- Modulus of Go's uint64 arithmetic. -/
def U64 : Nat := 2 ^ 64

/-- Modulus of Go's uint16 arithmetic. -/
def U16 : Nat := 2 ^ 16

/-- Go `htons` from raw.go, on a uint16 value:
`(i<<8)&0xff00 | i>>8`, with the left shift truncated to 16 bits as
Go's uint16 arithmetic does. -/
def htons (i : Nat) : Nat :=
  (((i <<< 8) % U16) &&& 0xff00) ||| (i >>> 8)

/-- Go's `copy(dst, src)` into a fresh zeroed destination of length
`dstLen`: copies `min dstLen src.length` bytes, leaves the rest zero. -/
def goCopy (dstLen : Nat) (src : List Nat) : List Nat :=
  src.take dstLen ++ List.replicate (dstLen - src.length) 0

/-- Go's `int32(i)` conversion on an `int` value: two's-complement
truncation to 32 bits. -/
def int32ofInt (i : Int) : Int :=
  (i + 2 ^ 31) % 2 ^ 32 - 2 ^ 31

/-- Linux constant `unix.AF_PACKET`. -/
def AF_PACKET : Nat := 17

/-- Linux constant `unix.SOCK_RAW`. -/
def SOCK_RAW : Nat := 3

/-- Linux constant `unix.SOCK_DGRAM`. -/
def SOCK_DGRAM : Nat := 2

/-- Linux constant `unix.SOL_SOCKET`. -/
def SOL_SOCKET : Nat := 1

/-- Linux constant `unix.SO_ATTACH_FILTER`. -/
def SO_ATTACH_FILTER : Nat := 26

/-- Linux constant `unix.SOL_PACKET`. -/
def SOL_PACKET : Nat := 263

/-- Linux constant `unix.PACKET_MR_PROMISC`. -/
def PACKET_MR_PROMISC : Nat := 1

/-- Linux constant `unix.PACKET_ADD_MEMBERSHIP`. -/
def PACKET_ADD_MEMBERSHIP : Nat := 1

/-- Linux constant `unix.PACKET_DROP_MEMBERSHIP`. -/
def PACKET_DROP_MEMBERSHIP : Nat := 2

/-- Result triple of the socket primitive's `Recvfrom` call, supplied as
an oracle to `ReadFrom`: byte count, sender sockaddr (possibly nil) and
error (possibly nil). -/
structure RecvResult where
  n : Int
  addr : Option Sockaddr
  err : Option Err
deriving DecidableEq

/-- Record of a `Sendto` call issued on the socket: buffer, flags and the
destination `SockaddrLinklayer` (the syscall's `to` argument) that
`WriteTo` constructed. -/
structure SendCall where
  buf : List Nat
  flags : Nat
  dest : SockaddrLinklayer
deriving DecidableEq

/-- Record of the `unix.Socket` call issued by `listenPacket`. -/
structure SocketCall where
  family : Nat
  typ : Nat
  protocol : Nat
deriving DecidableEq

/-- Record of the `Bind` call issued by `newPacketConn`: the
`SockaddrLinklayer` fields that matter for binding per packet(7). -/
structure BindCall where
  protocol : Nat
  ifindex : Int
deriving DecidableEq

/-- `golang.org/x/net/bpf.RawInstruction`: one fixed-size classifier
instruction, treated as an opaque blob. -/
structure RawInstruction where
  op : Nat
  jt : Nat
  jf : Nat
  k : Nat
deriving DecidableEq

/-- `unix.SockFprog`: the kernel "length + pointer" program descriptor
built by `SetBPF`.  The `Filter` pointer is modelled by the instruction it
points at, `&filter[0]`. -/
structure SockFprog where
  len : Nat
  filterHead : RawInstruction
deriving DecidableEq

/-- `unix.PacketMreq` as filled in by `SetPromiscuous`. -/
structure PacketMreq where
  ifindex : Int
  typ : Nat
deriving DecidableEq

/-- Record of the `SetSockopt` call issued by `SetPromiscuous`. -/
structure PromiscCall where
  level : Nat
  name : Nat
  mreq : PacketMreq
deriving DecidableEq

deriving instance DecidableEq for Except

/-- Syscall results supplied to `listenPacket` as oracles: the
`unix.Socket` result (fd or error), the `unix.SetNonblock` result and the
`Bind` result. -/
structure SysResults where
  socketResult : Except Err Nat
  setNonblockResult : Option Err
  bindResult : Option Err
deriving DecidableEq

/-- Trace of the syscalls issued by `listenPacket`: the socket-creation
call (always issued) and the bind call (issued unless creation or
set-nonblock failed first). -/
structure ListenTrace where
  socketCall : SocketCall
  bindCall : Option BindCall
deriving DecidableEq

/-- `packetConn.ReadFrom` from raw_linux.go: receive via the socket; on a
receive error return `(n, nil, err)`; then type-assert the sockaddr to
`*SockaddrLinklayer` and require `Halen ≥ 6`, else return
`(n, nil, EINVAL)`; on success build the hardware address from the first
`Halen` bytes of `Addr` (Go `make` + `copy`).  The Go method never
mutates the connection, so the returned state is `p` itself. -/
def PacketConn.ReadFrom (p : PacketConn) (r : RecvResult) :
    PacketConn × (Int × Option Addr × Option Err) :=
  (p,
    match r.err with
    | some e => (r.n, none, some e)
    | none =>
      match r.addr with
      | some (Sockaddr.linklayer sa) =>
        if sa.halen < 6 then
          (r.n, none, some Err.EINVAL)
        else
          (r.n, some { hardwareAddr := some (goCopy sa.halen sa.addr) }, none)
      | _ => (r.n, none, some Err.EINVAL))

/-- `packetConn.WriteTo` from raw_linux.go: type-assert the address to
`*Addr` and require a non-nil hardware address of length ≥ 6, else return
`(0, EINVAL)` without touching the socket; otherwise copy the hardware
address into the 8-byte `Addr` array, issue one `Sendto` with the whole
buffer and the conn's `Ifindex`/`Halen`/`Protocol`, and return
`(len(b), err)` where `err` is the send result.  The returned `SendCall`
records the single send issued (`none` when no send happened). -/
def PacketConn.WriteTo (p : PacketConn) (b : List Nat) (addr : NetAddr)
    (sendErr : Option Err) :
    PacketConn × (Nat × Option Err) × Option SendCall :=
  (p,
    match addr with
    | NetAddr.rawAddr a =>
      match a.hardwareAddr with
      | none => ((0, some Err.EINVAL), none)
      | some hw =>
        if hw.length < 6 then
          ((0, some Err.EINVAL), none)
        else
          ((b.length, sendErr),
            some
              { buf := b
                flags := 0
                dest :=
                  { protocol := p.pbe
                    ifindex := p.ifi.index
                    hatype := 0
                    pkttype := 0
                    halen := hw.length % 256
                    addr := goCopy 8 hw } })
    | _ => ((0, some Err.EINVAL), none))

/-- `packetConn.Close`: delegates to the socket's `Close`; the oracle
carries the socket's answer. -/
def PacketConn.Close (p : PacketConn) (closeErr : Option Err) :
    PacketConn × Option Err :=
  (p, closeErr)

/-- `packetConn.LocalAddr`: wraps the bound interface's own hardware
address; never fails. -/
def PacketConn.LocalAddr (p : PacketConn) : PacketConn × Addr :=
  (p, { hardwareAddr := some p.ifi.hardwareAddr })

/-- `packetConn.SetDeadline`: delegates to the socket. -/
def PacketConn.SetDeadline (p : PacketConn) (_t : Int) (sockErr : Option Err) :
    PacketConn × Option Err :=
  (p, sockErr)

/-- `packetConn.SetReadDeadline`: delegates to the socket. -/
def PacketConn.SetReadDeadline (p : PacketConn) (_t : Int)
    (sockErr : Option Err) : PacketConn × Option Err :=
  (p, sockErr)

/-- `packetConn.SetWriteDeadline`: delegates to the socket. -/
def PacketConn.SetWriteDeadline (p : PacketConn) (_t : Int)
    (sockErr : Option Err) : PacketConn × Option Err :=
  (p, sockErr)

/-- `packetConn.SetBPF` from raw_linux.go: builds
`SockFprog{Len: uint16(len(filter)), Filter: &filter[0]}` and issues the
`SO_ATTACH_FILTER` option-call.  Taking `&filter[0]` of an empty slice
panics with an index-out-of-range before any option-call, modelled as
`none`.  A failing option-call result `e` is wrapped as
`os.NewSyscallError("setsockopt", e)`; a succeeding one yields `nil`. -/
def PacketConn.SetBPF (p : PacketConn) (filter : List RawInstruction)
    (optErr : Option Err) :
    Option (PacketConn × Option Err × SockFprog) :=
  match filter with
  | [] => none
  | f0 :: rest =>
    let prog : SockFprog :=
      { len := (f0 :: rest).length % U16, filterHead := f0 }
    match optErr with
    | some e => some (p, some (Err.syscallError "setsockopt" e), prog)
    | none => some (p, none, prog)

/-- Post-state of `SetBPF`: the connection after the call, `p` itself when
the call panicked on an empty filter. -/
def PacketConn.setBPFState (p : PacketConn) (filter : List RawInstruction)
    (optErr : Option Err) : PacketConn :=
  ((p.SetBPF filter optErr).map Prod.fst).getD p

/-- `packetConn.SetPromiscuous` from raw_linux.go: fills a `PacketMreq`
with `int32(p.ifi.Index)` and `PACKET_MR_PROMISC`, chooses add or drop
membership from the flag, and issues one `SetSockopt` on `SOL_PACKET`. -/
def PacketConn.SetPromiscuous (p : PacketConn) (b : Bool)
    (optErr : Option Err) : PacketConn × Option Err × PromiscCall :=
  let mreq : PacketMreq :=
    { ifindex := int32ofInt p.ifi.index, typ := PACKET_MR_PROMISC }
  let membership :=
    if b then PACKET_ADD_MEMBERSHIP else PACKET_DROP_MEMBERSHIP
  (p, optErr, { level := SOL_PACKET, name := membership, mreq := mreq })

/-- `packetConn.handleStats` from raw_linux.go: with
`noCumulativeStats` set, return the kernel pair unchanged (widened from
uint32 to uint64) and leave the internal totals alone; otherwise
`atomic.AddUint64` both counters into the internal totals (uint64
wraparound) and return the updated totals. -/
def PacketConn.handleStats (p : PacketConn) (s : TpacketStats) :
    PacketConn × Stats :=
  if p.noCumulativeStats then
    (p, { packets := s.packets, drops := s.drops })
  else
    let packets := (p.stats.packets + s.packets) % U64
    let drops := (p.stats.drops + s.drops) % U64
    ({ p with stats := { packets := packets, drops := drops } },
      { packets := packets, drops := drops })

/-- `packetConn.Stats` from raw_linux.go: query `PACKET_STATISTICS` via
`GetSockopt` (oracle result `res`); on error return it, else run the
counters through `handleStats`. -/
def PacketConn.Stats (p : PacketConn) (res : Except Err TpacketStats) :
    PacketConn × Except Err Stats :=
  match res with
  | Except.error e => (p, Except.error e)
  | Except.ok s =>
    let q := p.handleStats s
    (q.1, Except.ok q.2)

/-- `newPacketConn` from raw_linux.go: bind the socket to the interface
with a `SockaddrLinklayer` carrying `pbe` and `ifi.Index`; a bind error is
returned verbatim; on success the connection holds `ifi`, the socket and
`pbe`. -/
def newPacketConn (ifi : Interface) (bindErr : Option Err) (pbe : Nat) :
    Except Err PacketConn × BindCall :=
  let bc : BindCall := { protocol := pbe, ifindex := ifi.index }
  match bindErr with
  | some e => (Except.error e, bc)
  | none =>
    (Except.ok
        { ifi := ifi
          pbe := pbe
          noTimeouts := false
          noCumulativeStats := false
          stats := { packets := 0, drops := 0 } },
      bc)

/-- `listenPacket` from raw_linux.go: convert `proto` to big endian with
`htons`, open an `AF_PACKET` socket of the configured type with protocol
`pbe`, set it nonblocking, wrap it via `newPacketConn` (which binds), and
copy the config flags onto the connection.  Each syscall error is returned
verbatim.  The trace records the socket call and, when reached, the bind
call. -/
def listenPacket (ifi : Interface) (proto : Nat) (cfg : Config)
    (w : SysResults) : Except Err PacketConn × ListenTrace :=
  let pbe := htons proto
  let typ := if cfg.linuxSockDGRAM then SOCK_DGRAM else SOCK_RAW
  let sc : SocketCall := { family := AF_PACKET, typ := typ, protocol := pbe }
  match w.socketResult with
  | Except.error e => (Except.error e, { socketCall := sc, bindCall := none })
  | Except.ok _fd =>
    match w.setNonblockResult with
    | some e => (Except.error e, { socketCall := sc, bindCall := none })
    | none =>
      match newPacketConn ifi w.bindResult pbe with
      | (Except.error e, bc) =>
        (Except.error e, { socketCall := sc, bindCall := some bc })
      | (Except.ok pc, bc) =>
        (Except.ok
            { pc with
              noTimeouts := cfg.noTimeouts
              noCumulativeStats := cfg.noCumulativeStats },
          { socketCall := sc, bindCall := some bc })

/-- The sockaddr shapes `ReadFrom` rejects: anything that is not a
`*SockaddrLinklayer` (nil included), or one whose `Halen` is under 6. -/
def badRecvAddr : Option Sockaddr → Bool
  | some (Sockaddr.linklayer sa) => decide (sa.halen < 6)
  | _ => true

/-- The destination addresses `WriteTo` rejects: anything that is not a
`*Addr`, a nil hardware address, or one shorter than 6 bytes. -/
def invalidWriteAddr : NetAddr → Bool
  | NetAddr.rawAddr a =>
    match a.hardwareAddr with
    | none => true
    | some hw => decide (hw.length < 6)
  | _ => true

/-- Binding immutability: connection `q` carries the same interface
(index and hardware address) and the same stored network-byte-order
protocol as connection `p`. -/
def preservesBinding (p q : PacketConn) : Prop :=
  q.ifi = p.ifi ∧ q.pbe = p.pbe

/-- A concrete interface for witnesses and counterexamples. -/
def testIfi : Interface :=
  { index := 2, hardwareAddr := [0xde, 0xad, 0xbe, 0xef, 0xde, 0xad] }

/-- A concrete connection in cumulative-stats mode with zeroed totals. -/
def cumConn : PacketConn :=
  { ifi := testIfi
    pbe := 0
    noTimeouts := false
    noCumulativeStats := false
    stats := { packets := 0, drops := 0 } }

/-- A concrete connection in instantaneous-stats mode. -/
def instConn : PacketConn :=
  { cumConn with noCumulativeStats := true }

/-- A config with every flag off, for witnesses. -/
def testCfg : Config :=
  { noTimeouts := false, noCumulativeStats := false, linuxSockDGRAM := false }

/-- A syscall world where every call succeeds, for witnesses. -/
def testSys : SysResults :=
  { socketResult := Except.ok 3, setNonblockResult := none, bindResult := none }

/-- A syscall world whose socket-creation call fails. -/
def errSysSocket : SysResults :=
  { socketResult := Except.error (Err.other 7)
    setNonblockResult := none
    bindResult := none }

/-- A syscall world whose bind call fails. -/
def errSysBind : SysResults :=
  { socketResult := Except.ok 3
    setNonblockResult := none
    bindResult := some (Err.other 7) }

/-- A successful receive of 10 bytes whose sender sockaddr is link-layer
shaped but declares a zero-length hardware address. -/
def badRecv : RecvResult :=
  { n := 10
    addr := some (Sockaddr.linklayer
      { protocol := 0, ifindex := 0, hatype := 0, pkttype := 0, halen := 0,
        addr := [0, 0, 0, 0, 0, 0, 0, 0] })
    err := none }

/-- A destination address that passes `WriteTo` validation. -/
def validDest : NetAddr :=
  NetAddr.rawAddr { hardwareAddr := some [1, 2, 3, 4, 5, 6] }

/-- A concrete classifier instruction. -/
def nopInstr : RawInstruction := { op := 0, jt := 0, jf := 0, k := 0 }

/-- A filter of exactly 2^16 instructions, at which `uint16(len(filter))`
wraps to 0. -/
def bigFilter : List RawInstruction := List.replicate 65536 nopInstr

set_option maxRecDepth 8192 in
theorem and_ff00 : ∀ q < 256, (q * 256) &&& 0xff00 = q * 256 := by decide

theorem htons_eq_swap (i : Nat) (h : i < 65536) :
    htons i = (i % 256) * 256 + i / 256 := by
  unfold htons U16
  have hs : i <<< 8 = i * 256 := by rw [Nat.shiftLeft_eq]
  have hr : i >>> 8 = i / 256 := by rw [Nat.shiftRight_eq_div_pow]
  have hmod : (i * 256) % 2 ^ 16 = (i % 256) * 256 := by omega
  rw [hs, hr, hmod, and_ff00 (i % 256) (Nat.mod_lt i (by norm_num))]
  have hb : i / 256 < 2 ^ 8 := by omega
  have hor := Nat.mul_add_lt_is_or hb (i % 256)
  have h8 : (2 : Nat) ^ 8 = 256 := by norm_num
  rw [h8] at hor
  rw [Nat.mul_comm (i % 256) 256, ← hor]

theorem htons_lt (i : Nat) (h : i < 65536) : htons i < 65536 := by
  rw [htons_eq_swap i h]
  omega

theorem htons_htons (i : Nat) (h : i < 65536) : htons (htons i) = i := by
  rw [htons_eq_swap (htons i) (htons_lt i h), htons_eq_swap i h]
  omega

/-- Claim C5: for every 16-bit protocol selector `p` in host byte order,
the protocol value used at socket creation and placed in the bind
sockaddr is `htons p`, where `htons p = (p mod 256)*256 + (p div 256)`
and `htons` is an involution on 16-bit values. -/
theorem htons_bind_spec (p : Nat) (hp : p < 65536) (ifi : Interface)
    (cfg : Config) (w : SysResults) :
    htons p = (p % 256) * 256 + p / 256 ∧
    htons (htons p) = p ∧
    (listenPacket ifi p cfg w).2.socketCall =
      { family := AF_PACKET
        typ := if cfg.linuxSockDGRAM then SOCK_DGRAM else SOCK_RAW
        protocol := htons p } ∧
    ((listenPacket ifi p cfg w).2.bindCall.map BindCall.protocol).getD
      (htons p) = htons p := by
  refine ⟨htons_eq_swap p hp, htons_htons p hp, ?_, ?_⟩
  · unfold listenPacket newPacketConn
    rcases w with ⟨sres, nres, bres⟩
    rcases sres with e | fd <;> rcases nres with _ | e2 <;>
      rcases bres with _ | e3 <;> rfl
  · unfold listenPacket newPacketConn
    rcases w with ⟨sres, nres, bres⟩
    rcases sres with e | fd <;> rcases nres with _ | e2 <;>
      rcases bres with _ | e3 <;> rfl

/-- Claim C5 witness: instantiation at the ARP protocol selector. -/
theorem htons_bind_spec_witness :
    htons 0x0806 = (0x0806 % 256) * 256 + 0x0806 / 256 ∧
    htons (htons 0x0806) = 0x0806 ∧
    (listenPacket testIfi 0x0806 testCfg testSys).2.socketCall =
      { family := AF_PACKET
        typ := if testCfg.linuxSockDGRAM then SOCK_DGRAM else SOCK_RAW
        protocol := htons 0x0806 } ∧
    ((listenPacket testIfi 0x0806 testCfg testSys).2.bindCall.map
        BindCall.protocol).getD (htons 0x0806) = htons 0x0806 :=
  htons_bind_spec 0x0806 (by norm_num) testIfi testCfg testSys

/-- Claim C1 counterexample: a successful 10-byte receive whose sender
sockaddr is link-layer shaped with `Halen = 0` makes `ReadFrom` return
`EINVAL` together with the received byte count 10, not zero — refuting
"reports zero bytes read". -/
theorem readFrom_badAddr_nonzero_count :
    badRecvAddr badRecv.addr = true ∧
    (cumConn.ReadFrom badRecv).2.2.2 = some Err.EINVAL ∧
    (cumConn.ReadFrom badRecv).2.1 = 10 ∧ (10 : Int) ≠ 0 := by
  refine ⟨rfl, rfl, rfl, by norm_num⟩

/-- Claim C1 (amended): for every received socket address that is not
link-layer shaped or declares a hardware-address length under 6 bytes,
`ReadFrom` returns an invalid-argument error (EINVAL) and reports the
byte count returned by the underlying receive call, which need not be
zero. -/
theorem readFrom_badAddr_einval (p : PacketConn) (r : RecvResult)
    (herr : r.err = none) (hbad : badRecvAddr r.addr = true) :
    p.ReadFrom r = (p, (r.n, none, some Err.EINVAL)) := by
  rcases r with ⟨n, addr, err⟩
  simp only at herr
  subst herr
  rcases addr with _ | (sall | k)
  · rfl
  · have hh : sall.halen < 6 := by
      simpa [badRecvAddr] using hbad
    simp [PacketConn.ReadFrom, hh]
  · rfl

/-- Claim C1 (amended) witness: concrete bad receive. -/
theorem readFrom_badAddr_einval_witness :
    badRecv.err = none ∧ badRecvAddr badRecv.addr = true ∧
    cumConn.ReadFrom badRecv = (cumConn, (10, none, some Err.EINVAL)) :=
  ⟨rfl, rfl, readFrom_badAddr_einval cumConn badRecv rfl rfl⟩

/-- Claim C2: for every destination address that is not a link address or
whose hardware address is shorter than 6 bytes, `WriteTo` returns
`(0, EINVAL)` and issues no underlying send call. -/
theorem writeTo_invalidAddr_einval (p : PacketConn) (b : List Nat)
    (addr : NetAddr) (sendErr : Option Err)
    (hbad : invalidWriteAddr addr = true) :
    p.WriteTo b addr sendErr = (p, ((0, some Err.EINVAL), none)) := by
  rcases addr with ⟨hw⟩ | k
  · rcases hw with _ | hw
    · rfl
    · have hh : hw.length < 6 := by
        simpa [invalidWriteAddr] using hbad
      simp [PacketConn.WriteTo, hh]
  · rfl

/-- Claim C2 witness: a 3-byte destination address. -/
theorem writeTo_invalidAddr_einval_witness :
    invalidWriteAddr (NetAddr.rawAddr { hardwareAddr := some [1, 2, 3] })
      = true ∧
    cumConn.WriteTo [7, 7]
        (NetAddr.rawAddr { hardwareAddr := some [1, 2, 3] }) none
      = (cumConn, ((0, some Err.EINVAL), none)) :=
  ⟨rfl, writeTo_invalidAddr_einval cumConn [7, 7] _ none rfl⟩

/-- Claim C3: for every buffer and valid link-layer destination, a
succeeding `WriteTo` returns `len(b)` with a nil error, and the single
underlying send call carried the whole buffer. -/
theorem writeTo_success_full_buffer (p : PacketConn) (b : List Nat)
    (addr : NetAddr) (hok : invalidWriteAddr addr = false) :
    (p.WriteTo b addr none).2.1 = (b.length, none) ∧
    ∃ c, (p.WriteTo b addr none).2.2 = some c ∧ c.buf = b := by
  rcases addr with ⟨hw⟩ | k
  · rcases hw with _ | hw
    · simp [invalidWriteAddr] at hok
    · have hh : ¬ hw.length < 6 := by
        simpa [invalidWriteAddr] using hok
      refine ⟨?_, ?_⟩ <;> simp [PacketConn.WriteTo, hh]
  · simp [invalidWriteAddr] at hok

/-- Claim C3 witness: a 3-byte frame to a 6-byte destination. -/
theorem writeTo_success_full_buffer_witness :
    invalidWriteAddr validDest = false ∧
    ((cumConn.WriteTo [9, 8, 7] validDest none).2.1 = (3, none) ∧
      ∃ c, (cumConn.WriteTo [9, 8, 7] validDest none).2.2 = some c ∧
        c.buf = [9, 8, 7]) :=
  ⟨rfl, writeTo_success_full_buffer cumConn [9, 8, 7] validDest rfl⟩

/-- Claim C10: for every buffer and validated destination, `WriteTo`
returns `len(b)` unconditionally — also when the underlying send call
fails, in which case the send error accompanies the full byte count. -/
theorem writeTo_returns_len_always (p : PacketConn) (b : List Nat)
    (addr : NetAddr) (sendErr : Option Err)
    (hok : invalidWriteAddr addr = false) :
    (p.WriteTo b addr sendErr).2.1 = (b.length, sendErr) := by
  rcases addr with ⟨hw⟩ | k
  · rcases hw with _ | hw
    · simp [invalidWriteAddr] at hok
    · have hh : ¬ hw.length < 6 := by
        simpa [invalidWriteAddr] using hok
      simp [PacketConn.WriteTo, hh]
  · simp [invalidWriteAddr] at hok

/-- Claim C10 witness: a failing send still reports the full length. -/
theorem writeTo_returns_len_always_witness :
    invalidWriteAddr validDest = false ∧
    (instConn.WriteTo [1, 2] validDest (some (Err.other 0))).2.1
      = (2, some (Err.other 0)) :=
  ⟨rfl, writeTo_returns_len_always instConn [1, 2] validDest
    (some (Err.other 0)) rfl⟩

/-- Claim C4: `handleStats` returns the kernel pair unchanged in
instantaneous mode, and in cumulative mode folds both counters into the
running totals with uint64 wraparound and returns the updated totals;
on the kernel reports (5,1) then (3,0) a cumulative connection yields
(5,1) then (8,1) and an instantaneous one yields (5,1) then (3,0). -/
theorem handleStats_spec (p : PacketConn) (s : TpacketStats) :
    PacketConn.handleStats { p with noCumulativeStats := true } s
      = ({ p with noCumulativeStats := true },
          { packets := s.packets, drops := s.drops }) ∧
    (PacketConn.handleStats { p with noCumulativeStats := false } s).2
      = { packets := (p.stats.packets + s.packets) % U64
          drops := (p.stats.drops + s.drops) % U64 } ∧
    (PacketConn.handleStats { p with noCumulativeStats := false } s).1.stats
      = (PacketConn.handleStats { p with noCumulativeStats := false } s).2 ∧
    (cumConn.handleStats { packets := 5, drops := 1 }).2
      = { packets := 5, drops := 1 } ∧
    (PacketConn.handleStats (cumConn.handleStats { packets := 5, drops := 1 }).1
        { packets := 3, drops := 0 }).2
      = { packets := 8, drops := 1 } ∧
    (instConn.handleStats { packets := 5, drops := 1 }).2
      = { packets := 5, drops := 1 } ∧
    (PacketConn.handleStats (instConn.handleStats { packets := 5, drops := 1 }).1
        { packets := 3, drops := 0 }).2
      = { packets := 3, drops := 0 } := by
  refine ⟨?_, ?_, ?_, ?_, ?_, ?_, ?_⟩ <;>
    simp [PacketConn.handleStats, cumConn, instConn, testIfi, U64]

/-- Claim C6: a failing `SO_ATTACH_FILTER` option-call makes `SetBPF`
return the error wrapped with the attempted operation name
("setsockopt"); a succeeding option-call makes `SetBPF` return nil. -/
theorem setBPF_error_tagging (p : PacketConn) (filter : List RawInstruction)
    (e : Err) (hne : filter ≠ []) :
    (∃ prog, p.SetBPF filter (some e)
        = some (p, some (Err.syscallError "setsockopt" e), prog)) ∧
    (∃ prog, p.SetBPF filter none = some (p, none, prog)) := by
  rcases filter with _ | ⟨f0, rest⟩
  · exact absurd rfl hne
  · exact ⟨⟨_, rfl⟩, ⟨_, rfl⟩⟩

/-- Claim C6 witness: one-instruction filter. -/
theorem setBPF_error_tagging_witness :
    ([nopInstr] ≠ ([] : List RawInstruction)) ∧
    ((∃ prog, cumConn.SetBPF [nopInstr] (some (Err.other 1))
        = some (cumConn, some (Err.syscallError "setsockopt" (Err.other 1)),
            prog)) ∧
      (∃ prog, cumConn.SetBPF [nopInstr] none = some (cumConn, none, prog))) :=
  ⟨by simp, setBPF_error_tagging cumConn [nopInstr] (Err.other 1) (by simp)⟩

/-- Claim C7: a socket-creation failure and a bind failure are returned
verbatim by `listenPacket` (and `newPacketConn`), without wrapping. -/
theorem open_errors_verbatim (ifi : Interface) (proto : Nat) (cfg : Config)
    (e : Err) (w1 w2 : SysResults) (fd : Nat) (pbe : Nat)
    (h1 : w1.socketResult = Except.error e)
    (h2a : w2.socketResult = Except.ok fd)
    (h2b : w2.setNonblockResult = none)
    (h2c : w2.bindResult = some e) :
    (listenPacket ifi proto cfg w1).1 = Except.error e ∧
    (listenPacket ifi proto cfg w2).1 = Except.error e ∧
    (newPacketConn ifi (some e) pbe).1 = Except.error e := by
  refine ⟨?_, ?_, rfl⟩
  · simp [listenPacket, h1]
  · simp [listenPacket, newPacketConn, h2a, h2b, h2c]

/-- Claim C7 witness: concrete failing worlds. -/
theorem open_errors_verbatim_witness :
    errSysSocket.socketResult = Except.error (Err.other 7) ∧
    errSysBind.socketResult = Except.ok 3 ∧
    errSysBind.setNonblockResult = none ∧
    errSysBind.bindResult = some (Err.other 7) ∧
    ((listenPacket testIfi 0x0806 testCfg errSysSocket).1
        = Except.error (Err.other 7) ∧
      (listenPacket testIfi 0x0806 testCfg errSysBind).1
        = Except.error (Err.other 7) ∧
      (newPacketConn testIfi (some (Err.other 7)) 0).1
        = Except.error (Err.other 7)) :=
  ⟨rfl, rfl, rfl, rfl,
    open_errors_verbatim testIfi 0x0806 testCfg (Err.other 7) errSysSocket
      errSysBind 3 0 rfl rfl rfl rfl⟩

/-- Claim C8: every connection operation — ReadFrom, WriteTo, Close,
LocalAddr, the SetDeadline family, SetBPF, SetPromiscuous and Stats —
leaves the interface binding (index and hardware address) and the stored
network-byte-order protocol unchanged. -/
theorem binding_immutable (p : PacketConn) (r : RecvResult) (b : List Nat)
    (addr : NetAddr) (se ce d1 d2 d3 pe be : Option Err)
    (filter : List RawInstruction) (en : Bool) (t1 t2 t3 : Int)
    (sres : Except Err TpacketStats) :
    preservesBinding p (p.ReadFrom r).1 ∧
    preservesBinding p (p.WriteTo b addr se).1 ∧
    preservesBinding p (p.Close ce).1 ∧
    preservesBinding p p.LocalAddr.1 ∧
    preservesBinding p (p.SetDeadline t1 d1).1 ∧
    preservesBinding p (p.SetReadDeadline t2 d2).1 ∧
    preservesBinding p (p.SetWriteDeadline t3 d3).1 ∧
    preservesBinding p (p.setBPFState filter be) ∧
    preservesBinding p (p.SetPromiscuous en pe).1 ∧
    preservesBinding p (p.Stats sres).1 := by
  refine ⟨⟨rfl, rfl⟩, ⟨rfl, rfl⟩, ⟨rfl, rfl⟩, ⟨rfl, rfl⟩, ⟨rfl, rfl⟩,
    ⟨rfl, rfl⟩, ⟨rfl, rfl⟩, ?_, ⟨rfl, rfl⟩, ?_⟩
  · rcases filter with _ | ⟨f0, rest⟩
    · exact ⟨rfl, rfl⟩
    · rcases be with _ | e <;> exact ⟨rfl, rfl⟩
  · rcases sres with e | s
    · exact ⟨rfl, rfl⟩
    · unfold PacketConn.Stats PacketConn.handleStats
      by_cases hc : p.noCumulativeStats <;> simp [preservesBinding, hc]

theorem setBPF_cons_map_len (p : PacketConn) (f0 : RawInstruction)
    (rest : List RawInstruction) :
    (p.SetBPF (f0 :: rest) none).map (fun r => r.2.2.len)
      = some ((rest.length + 1) % U16) := rfl

/-- Claim C9 counterexample: at a filter of exactly 2^16 instructions the
descriptor's `Len` field is `uint16(65536) = 0`, not the number of
instructions. -/
theorem setBPF_len_wrap_counterexample :
    bigFilter ≠ [] ∧ bigFilter.length = 65536 ∧
    (cumConn.SetBPF bigFilter none).map (fun r => r.2.2.len) = some 0 := by
  have hrep : bigFilter = nopInstr :: List.replicate 65535 nopInstr := by
    unfold bigFilter
    rw [show (65536 : Nat) = 65535 + 1 from rfl, List.replicate_succ]
  refine ⟨?_, ?_, ?_⟩
  · rw [hrep]
    exact List.cons_ne_nil _ _
  · unfold bigFilter
    rw [List.length_replicate]
  · rw [hrep, setBPF_cons_map_len, List.length_replicate]
    norm_num [U16]

/-- Claim C9 (amended): `SetBPF` with an empty instruction slice indexes
element 0 out of bounds before any option-call; for every non-empty
filter the descriptor's `Len` field is `uint16(len(filter))`, i.e. the
number of instructions reduced mod 2^16 (equal to the count whenever the
filter has fewer than 2^16 instructions). -/
theorem setBPF_partial_spec (p : PacketConn) (filter : List RawInstruction)
    (optErr : Option Err) (hne : filter ≠ []) :
    p.SetBPF [] optErr = none ∧
    ∃ r, p.SetBPF filter optErr = some r ∧
      r.2.2.len = filter.length % U16 := by
  refine ⟨rfl, ?_⟩
  rcases filter with _ | ⟨f0, rest⟩
  · exact absurd rfl hne
  · rcases optErr with _ | e
    · exact ⟨_, rfl, rfl⟩
    · exact ⟨_, rfl, rfl⟩

/-- Claim C9 (amended) witness: one-instruction filter. -/
theorem setBPF_partial_spec_witness :
    ([nopInstr] ≠ ([] : List RawInstruction)) ∧
    (instConn.SetBPF [] none = none ∧
      ∃ r, instConn.SetBPF [nopInstr] none = some r ∧
        r.2.2.len = [nopInstr].length % U16) :=
  ⟨by simp, setBPF_partial_spec instConn [nopInstr] none (by simp)⟩

end Raw
